import Mathlib

/-
Shallow embedding of the hanko browser client (src/js/client/src/lib/State.ts,
src/js/client/src/lib/Client.ts and the facade in src/unnamed/part_000).

Modelling conventions:
  - JS numbers that can be NaN (parseInt results and the timestamp fields fed
    from them) are modelled as JNum := Option Int, with none standing for NaN;
    arithmetic on none propagates none, as NaN does.
  - Date.now() / 1000 (floored) is passed explicitly as a parameter now : Int.
  - The module level constant initialUserState is a shared mutable JS object:
    getUserState returns it by reference when a user has no record, and the
    mutating store operations mutate the returned object in place.  The model
    therefore carries the current contents of that shared object in Mem.init
    and updates it exactly when the source mutates the shared object.
  - localStorage round trips values through JSON, so a record read back for an
    existing user is a fresh copy; the model reflects that by keeping stored
    records as immutable values in an association list (JS object insertion
    order preserved, property update in place).
-/

/-- A JS number that is either an integer or NaN (none). -/
abbrev JNum := Option Int

/-- Model of JS parseInt(s, 10): skip leading whitespace, optional sign, then
the longest digit prefix; NaN (none) when no digit is found. -/
def parseIntJS (s : String) : Option Int :=
  let cs := s.data.dropWhile (fun c => c = ' ' || c = '\t' || c = '\n' || c = '\r')
  let signAndRest : Int × List Char :=
    match cs with
    | '-' :: rest => (-1, rest)
    | '+' :: rest => (1, rest)
    | _ => (1, cs)
  let ds := signAndRest.2.takeWhile Char.isDigit
  if ds.isEmpty then none
  else some (signAndRest.1 *
    (ds.foldl (fun acc c => acc * 10 + (c.toNat - '0'.toNat)) (0 : Nat) : Nat))

/-- DTO.ts Credential. -/
structure Credential where
  id : String
deriving DecidableEq, Repr

/-- State.ts passcode record inside a LocalStorageUser. -/
structure PasscodeRec where
  id : String
  ttl : JNum
  resendAfter : JNum
deriving DecidableEq, Repr

/-- State.ts password record inside a LocalStorageUser. -/
structure PasswordRec where
  retryAfter : JNum
deriving DecidableEq, Repr

/-- State.ts LocalStorageUser. -/
structure UserRec where
  webAuthnCredentials : List String
  passcode : PasscodeRec
  password : PasswordRec
deriving DecidableEq, Repr

/-- State.ts initialUserState (its initial contents; the live object can be
mutated through aliasing, which Mem.init tracks). -/
def initialUserState : UserRec :=
  { webAuthnCredentials := []
    passcode := { id := "", ttl := some 0, resendAfter := some 0 }
    password := { retryAfter := some 0 } }

/-- The observable state of the store layer: the persisted users map plus the
current contents of the shared initialUserState object. -/
structure Mem where
  users : List (String × UserRec)
  init : UserRec
deriving DecidableEq, Repr

/-- A fresh page with an empty localStorage blob. -/
def mem0 : Mem := { users := [], init := initialUserState }

/-- First-match lookup in a JS-object-like association list. -/
def lookupUser : List (String × UserRec) → String → Option UserRec
  | [], _ => none
  | (k, v) :: rest, uid => if k == uid then some v else lookupUser rest uid

/-- JS object property assignment: replace in place if the key exists,
otherwise append (insertion order preserved). -/
def insertUser : List (String × UserRec) → String → UserRec → List (String × UserRec)
  | [], uid, u => [(uid, u)]
  | (k, v) :: rest, uid, u =>
    if k == uid then (k, u) :: rest else (k, v) :: insertUser rest uid u

/-- State.getUserState: the stored record when present, otherwise the shared
initialUserState object (returned by reference, hence m.init). -/
def getUserState (m : Mem) (uid : String) : UserRec :=
  match lookupUser m.users uid with
  | some u => u
  | none => m.init

/-- The shared mutate-and-store pattern of every mutating State.ts method:
state = getUserState(uid); mutate state in place; setUserState(uid, state).
When the user has no record, the mutated object IS the shared
initialUserState, so Mem.init is updated alongside the stored copy. -/
def mutateUser (m : Mem) (uid : String) (f : UserRec → UserRec) : Mem :=
  match lookupUser m.users uid with
  | some u => { m with users := insertUser m.users uid (f u) }
  | none =>
    let u := f m.init
    { users := insertUser m.users uid u, init := u }

/-- State.timeToRemainingSeconds: time - floor(Date.now() / 1000). -/
def timeToRemainingSeconds (time : JNum) (now : Int) : JNum :=
  time.map (fun t => t - now)

/-- State.remainingSecondsToTime: floor(Date.now() / 1000) + seconds. -/
def remainingSecondsToTime (seconds : JNum) (now : Int) : JNum :=
  seconds.map (fun s => now + s)

/-- WebAuthnState.setCredentialID: push the ID onto the stored list. -/
def setCredentialID (m : Mem) (uid cid : String) : Mem :=
  mutateUser m uid (fun u =>
    { u with webAuthnCredentials := u.webAuthnCredentials ++ [cid] })

/-- The spec getter getCredentialIDs: the webAuthnCredentials list exposed by
State.getUserState. -/
def getCredentialIDs (m : Mem) (uid : String) : List String :=
  (getUserState m uid).webAuthnCredentials

/-- WebAuthnState.matchCredentials: stored IDs that occur in the candidate
list, one output entry per stored occurrence. -/
def matchCredentials (m : Mem) (uid : String) (cands : List Credential) :
    List Credential :=
  ((getUserState m uid).webAuthnCredentials.filter
    (fun i => (cands.find? (fun c => c.id == i)).isSome)).map
    (fun i => { id := i })

/-- PasscodeState.getActiveID. -/
def getActiveID (m : Mem) (uid : String) : String :=
  (getUserState m uid).passcode.id

/-- PasscodeState.setActiveID. -/
def setActiveID (m : Mem) (uid pid : String) : Mem :=
  mutateUser m uid (fun u => { u with passcode := { u.passcode with id := pid } })

/-- PasscodeState.removeActive: resets id and ttl to the CURRENT fields of the
shared initialUserState object (m.init), exactly as the source reads
initialUserState.passcode.id and initialUserState.passcode.ttl. -/
def removeActive (m : Mem) (uid : String) : Mem :=
  mutateUser m uid (fun u =>
    { u with passcode :=
      { u.passcode with id := m.init.passcode.id, ttl := m.init.passcode.ttl } })

/-- PasscodeState.getTTL. -/
def getTTL (m : Mem) (uid : String) (now : Int) : JNum :=
  timeToRemainingSeconds (getUserState m uid).passcode.ttl now

/-- PasscodeState.setTTL. -/
def setTTL (m : Mem) (uid : String) (seconds : JNum) (now : Int) : Mem :=
  mutateUser m uid (fun u =>
    { u with passcode :=
      { u.passcode with ttl := remainingSecondsToTime seconds now } })

/-- PasscodeState.getResendAfter. -/
def getResendAfter (m : Mem) (uid : String) (now : Int) : JNum :=
  timeToRemainingSeconds (getUserState m uid).passcode.resendAfter now

/-- PasscodeState.setResendAfter. -/
def setResendAfter (m : Mem) (uid : String) (seconds : JNum) (now : Int) : Mem :=
  mutateUser m uid (fun u =>
    { u with passcode :=
      { u.passcode with resendAfter := remainingSecondsToTime seconds now } })

/-- PasswordState.getRetryAfter. -/
def getRetryAfter (m : Mem) (uid : String) (now : Int) : JNum :=
  timeToRemainingSeconds (getUserState m uid).password.retryAfter now

/-- PasswordState.setRetryAfter. -/
def setRetryAfter (m : Mem) (uid : String) (seconds : JNum) (now : Int) : Mem :=
  mutateUser m uid (fun u =>
    { u with password := { retryAfter := remainingSecondsToTime seconds now } })

/-- Errors.ts failure kinds raised by the transport itself. -/
inductive TransportErr
  | technical
  | timeout
deriving DecidableEq, Repr

/-- Errors.ts error kinds observable from the orchestrator clients. -/
inductive HankoErr
  | technical
  | timeout
  | unauthorized
  | notFound
  | conflict
  | invalidPassword
  | invalidPasscode
  | maxPasscodeAttemptsReached
  | invalidWebauthnCredential
  | requestCancelled
  | tooManyRequests (retryAfter : JNum)
deriving DecidableEq, Repr

/-- A transport rejection surfaces unchanged to the caller through the
trailing catch of each client method. -/
def TransportErr.toHanko : TransportErr → HankoErr
  | .technical => .technical
  | .timeout => .timeout

/-- Client.ts Response wrapper: status code and response headers. -/
structure Response where
  status : Nat
  headers : List (String × String)
deriving DecidableEq, Repr

/-- Client.ts Response.ok: xhr.status between 200 and 299. -/
def Response.isOk (r : Response) : Bool :=
  decide (200 ≤ r.status) && decide (r.status ≤ 299)

/-- xhr.getResponseHeader: the header value, or null (none) when absent. -/
def headerGet (hs : List (String × String)) (name : String) : Option String :=
  match hs.find? (fun p => p.1 == name) with
  | some p => some p.2
  | none => none

/-- The JS expression h || "0": null and the empty string are falsy. -/
def jsOr (h : Option String) (d : String) : String :=
  match h with
  | none => d
  | some s => if s == "" then d else s

/-- The shared 429 handling: parseInt(headers.get("X-Retry-After") || "0", 10). -/
def retryAfterOf (r : Response) : JNum :=
  parseIntJS (jsOr (headerGet r.headers "X-Retry-After") "0")

/-- DTO.ts Passcode as returned by the passcode initialize endpoint. -/
structure PasscodeDTO where
  id : String
  ttl : JNum
deriving DecidableEq, Repr

/-- DTO.ts User as consumed by shouldRegister. -/
structure UserDTO where
  id : String
  email : String
  webauthn_credentials : Option (List Credential)
deriving DecidableEq, Repr

/-- DTO.ts Attestation: the ceremony payload, with the transports list both at
top level and under the response sub-object. -/
structure Attestation where
  transports : List String
  responseTransports : List String
deriving DecidableEq, Repr

/-- DTO.ts WebauthnFinalized: body of a successful finalize response. -/
structure WebauthnFinalized where
  user_id : String
  credential_id : String
deriving DecidableEq, Repr

/-- PasscodeClient.initialize modelled over the response of the single POST.
On success the body (pc) is stored as the active passcode; on 429 the
X-Retry-After value is persisted as the resend cooldown. -/
def passcodeInit (m : Mem) (uid : String) (resp : Except TransportErr Response)
    (pc : PasscodeDTO) (now : Int) : Except HankoErr PasscodeDTO × Mem :=
  match resp with
  | .error te => (.error te.toHanko, m)
  | .ok r =>
    if r.isOk then
      (.ok pc, setTTL (setActiveID m uid pc.id) uid pc.ttl now)
    else if r.status == 429 then
      let retryAfter := retryAfterOf r
      (.error (.tooManyRequests retryAfter), setResendAfter m uid retryAfter now)
    else
      (.error .technical, m)

/-- PasscodeClient.finalize modelled over the response of the single POST.
The active passcode ID is read (not written) before the request. -/
def passcodeFinalize (m : Mem) (uid code : String)
    (resp : Except TransportErr Response) (now : Int) :
    Except HankoErr Unit × Mem :=
  match resp with
  | .error te => (.error te.toHanko, m)
  | .ok r =>
    if r.isOk then
      (.ok (), setResendAfter (removeActive m uid) uid (some 0) now)
    else if r.status == 401 then
      (.error .invalidPasscode, m)
    else if r.status == 404 || r.status == 410 then
      (.error .maxPasscodeAttemptsReached, removeActive m uid)
    else
      (.error .technical, m)

/-- PasswordClient.login modelled over the response of the single POST. -/
def passwordLogin (m : Mem) (uid password : String)
    (resp : Except TransportErr Response) (now : Int) :
    Except HankoErr Unit × Mem :=
  match resp with
  | .error te => (.error te.toHanko, m)
  | .ok r =>
    if r.isOk then
      (.ok (), m)
    else if r.status == 401 then
      (.error .invalidPassword, m)
    else if r.status == 429 then
      let retryAfter := retryAfterOf r
      (.error (.tooManyRequests retryAfter), setRetryAfter m uid retryAfter now)
    else
      (.error .technical, m)

/-- WebauthnClient.register modelled over its promise chain.  The catch that
wraps failures into WebAuthnRequestCancelledError sits AFTER both the
challenge then-handler and the ceremony step, so every rejection produced
before it (transport failure or the TechnicalError thrown for a non-success
challenge response) is wrapped as requestCancelled, exactly as in the source
(which, unlike login, has no intermediate catch after the first then). -/
def webauthnRegister (initResp : Except TransportErr Response)
    (ceremony : Except Unit Attestation)
    (finResp : Except TransportErr Response) (w : WebauthnFinalized)
    (m : Mem) : Except HankoErr Unit × Mem :=
  let step1 : Except HankoErr Unit :=
    match initResp with
    | .error te => .error te.toHanko
    | .ok r => if r.isOk then .ok () else .error .technical
  let afterCeremony : Except HankoErr Attestation :=
    match step1 with
    | .error _ => .error .requestCancelled
    | .ok _ =>
      match ceremony with
      | .error _ => .error .requestCancelled
      | .ok att => .ok { att with transports := att.responseTransports }
  match afterCeremony with
  | .error e => (.error e, m)
  | .ok _ =>
    match finResp with
    | .error te => (.error te.toHanko, m)
    | .ok r =>
      if r.isOk then
        (.ok (), setCredentialID m w.user_id w.credential_id)
      else
        (.error .technical, m)

/-- WebauthnClient.shouldRegister: supported when the user has no server-known
credentials, otherwise supported and no local match. -/
def shouldRegister (m : Mem) (supported : Bool) (user : UserDTO) : Bool :=
  match user.webauthn_credentials with
  | none => supported
  | some creds =>
    if creds.isEmpty then supported
    else supported && (matchCredentials m user.id creds).isEmpty

/-- A JSON value as produced by JSON.parse (numbers restricted to integers,
which covers every value the store itself writes and the inputs the claims
exercise). -/
inductive Json
  | null
  | bool (b : Bool)
  | num (n : Int)
  | str (s : String)
  | arr (elems : List Json)
  | obj (fields : List (String × Json))

/-- First-match field lookup in a parsed JSON object (JSON.parse yields
objects with unique keys). -/
def lookupField : List (String × Json) → String → Option Json
  | [], _ => none
  | (k, v) :: rest, key => if k == key then some v else lookupField rest key

/-- State.read over the raw blob: none models any throw inside the try block
(missing key, invalid base64, malformed URI escape, JSON syntax error) and is
mapped to the empty store object; some j models a successful decode of the
blob into the JS value j, returned as is with no shape check. -/
def readJS (blob : Option Json) : Json :=
  match blob with
  | none => Json.obj [("users", Json.obj [])]
  | some j => j

/-- JS property access v.name: throws a TypeError on null, yields the field on
an object, and undefined (none) on other values (none of which carry an own
property named "users"). -/
def jsProp : Json → String → Except Unit (Option Json)
  | .null, _ => .error ()
  | .obj fields, name => .ok (lookupField fields name)
  | _, _ => .ok none

/-- Object.prototype.hasOwnProperty.call(v, key): throws a TypeError when v is
undefined or null, checks own properties otherwise (string and array index
and length properties included; non-canonical index spellings are not
distinguished, which no claim exercises). -/
def jsHasOwn : Option Json → String → Except Unit Bool
  | none, _ => .error ()
  | some .null, _ => .error ()
  | some (.obj fs), key => .ok (fs.any (fun p => p.1 == key))
  | some (.str s), key =>
    .ok (key == "length" ||
      (match key.toNat? with | some i => decide (i < s.length) | none => false))
  | some (.arr xs), key =>
    .ok (key == "length" ||
      (match key.toNat? with | some i => decide (i < xs.length) | none => false))
  | some _, _ => .ok false

/-- JS indexing v[key], reached only after jsHasOwn returned true. -/
def jsIndex : Option Json → String → Json
  | some (.obj fs), key => (lookupField fs key).getD .null
  | some (.str s), key =>
    if key == "length" then .num s.length
    else
      match key.toNat? with
      | some i => ((s.data.get? i).map (fun c => Json.str c.toString)).getD .null
      | none => .null
  | some (.arr xs), key =>
    if key == "length" then .num xs.length
    else
      match key.toNat? with
      | some i => (xs.get? i).getD .null
      | none => .null
  | _, _ => .null

/-- The initialUserState object as a JSON value. -/
def initialUserJson : Json :=
  Json.obj
    [("webAuthnCredentials", Json.arr []),
     ("passcode", Json.obj
       [("id", Json.str ""), ("ttl", Json.num 0), ("resendAfter", Json.num 0)]),
     ("password", Json.obj [("retryAfter", Json.num 0)])]

/-- State.getUserState over a raw blob: read the store, access store.users,
call hasOwnProperty on it with the user ID, and return either the stored
value or the shared default.  An error models an uncaught TypeError escaping
the getter (the try/catch in the source only guards read itself). -/
def getUserStateJS (blob : Option Json) (uid : String) : Except Unit Json := do
  let store := readJS blob
  let users ← jsProp store "users"
  let ex ← jsHasOwn users uid
  if ex then pure (jsIndex users uid) else pure initialUserJson

/-- Every user created or updated through the mutate-and-store pattern is
afterwards present in the persisted map with the mutated record. -/
theorem lookupUser_insertUser_self (l : List (String × UserRec)) (uid : String)
    (u : UserRec) : lookupUser (insertUser l uid u) uid = some u := by
  induction l with
  | nil => simp [insertUser, lookupUser]
  | cons p rest ih =>
    by_cases h : p.1 == uid
    · simp [insertUser, lookupUser, h]
    · simp [insertUser, lookupUser, h, ih]

/-- Reading back the user just written yields the mutated record. -/
theorem getUserState_mutateUser_self (m : Mem) (uid : String)
    (f : UserRec → UserRec) :
    getUserState (mutateUser m uid f) uid = f (getUserState m uid) := by
  unfold getUserState mutateUser
  cases h : lookupUser m.users uid with
  | some u => simp [h, lookupUser_insertUser_self]
  | none => simp [h, lookupUser_insertUser_self]

/-- C1: the claim that getters for a user with no record always return the
zero-value default, regardless of prior mutations for OTHER user IDs, fails
on the code: after appendCredentialID("u1", "c1") on a fresh store, the user
"u2" still has no record (third conjunct), yet matchCredentials and the
credential list for "u2" report the credential appended for "u1", because
getUserState handed out the shared initialUserState object and the append
mutated it in place. -/
theorem C1_defaults_polluted_by_alias :
    matchCredentials (setCredentialID mem0 "u1" "c1") "u2" [{ id := "c1" }]
      = [{ id := "c1" }] ∧
    getCredentialIDs (setCredentialID mem0 "u1" "c1") "u2" = ["c1"] ∧
    lookupUser (setCredentialID mem0 "u1" "c1").users "u2" = none :=
  ⟨rfl, rfl, rfl⟩

/-- C2 counterexample: appending the same credential ID twice DOES make
matchCredentials return two matches for that ID, refuting the second half of
the claim at the concrete input u1/c1. -/
theorem C2_counterexample :
    matchCredentials (setCredentialID (setCredentialID mem0 "u1" "c1") "u1" "c1")
      "u1" [{ id := "c1" }] = [{ id := "c1" }, { id := "c1" }] := rfl

/-- C2 amended: after appendCredentialID(u, id), getCredentialIDs(u) contains
id; but appending the same ID twice stores it twice and matchCredentials
returns one match entry per stored occurrence, so a candidate list containing
that ID yields at least two matches for it. -/
theorem C2_amended (m : Mem) (uid cid : String) (cands : List Credential)
    (h : (cands.find? (fun c => c.id == cid)).isSome) :
    cid ∈ getCredentialIDs (setCredentialID m uid cid) uid ∧
    2 ≤ (matchCredentials (setCredentialID (setCredentialID m uid cid) uid cid)
          uid cands).countP (fun c => c.id == cid) := by
  constructor
  · simp [getCredentialIDs, setCredentialID, getUserState_mutateUser_self]
  · have hcreds :
        (getUserState (setCredentialID (setCredentialID m uid cid) uid cid)
          uid).webAuthnCredentials
        = (getUserState m uid).webAuthnCredentials ++ [cid, cid] := by
      simp [setCredentialID, getUserState_mutateUser_self]
    simp only [matchCredentials, hcreds, List.filter_append, List.countP_append,
      List.countP_map, List.map_append]
    have hkeep :
        (List.filter (fun i => (cands.find? (fun c => c.id == i)).isSome) [cid, cid])
        = [cid, cid] := by
      simp [List.filter, h]
    rw [hkeep]
    simp [List.countP_cons]

/-- C2 amended, witness at u1/c1. -/
theorem C2_amended_witness :
    "c1" ∈ getCredentialIDs (setCredentialID mem0 "u1" "c1") "u1" ∧
    2 ≤ (matchCredentials (setCredentialID (setCredentialID mem0 "u1" "c1") "u1" "c1")
          "u1" [⟨"c1"⟩]).countP (fun c => c.id == "c1") :=
  C2_amended mem0 "u1" "c1" [⟨"c1"⟩] (by decide)

/-- C3: the claim that every Store read over an arbitrary blob returns the
empty default and never raises fails on the code: a blob whose bytes decode
to the well-formed JSON value {} (for example the base64 blob "e30=") makes
getUserState throw a TypeError, because store.users is undefined and
hasOwnProperty is called on it outside any try block.  Blobs whose decoding
throws (second conjunct) are indeed degraded to the default record. -/
theorem C3_corrupt_blob_getter_throws :
    getUserStateJS (some (Json.obj [])) "u1" = Except.error () ∧
    getUserStateJS none "u1" = Except.ok initialUserJson :=
  ⟨rfl, rfl⟩

/-- C4: the claim that a non-success response to the registration challenge
request is classified Technical fails on the code: in register the catch that
produces WebAuthnRequestCancelledError sits after the challenge then-handler
(there is no intermediate catch as in login), so the TechnicalError thrown
for a non-success challenge response (here status 500) is wrapped and the
operation rejects as Request Cancelled, for every ceremony or finalize
outcome and every store state. -/
theorem C4_challenge_failure_wrapped_as_cancelled (cer : Except Unit Attestation)
    (finR : Except TransportErr Response) (w : WebauthnFinalized) (m : Mem)
    (hs : List (String × String)) :
    webauthnRegister (Except.ok ⟨500, hs⟩) cer finR w m
      = (Except.error HankoErr.requestCancelled, m) := rfl

/-- C5: when the finalize request returns HTTP 401, PasscodeClient.finalize
rejects with InvalidPasscodeError and the store is returned unchanged, so the
active passcode ID and its remaining TTL read afterwards are exactly those
persisted before the call. -/
theorem C5_finalize_401_invalid_passcode_state_unchanged (m : Mem)
    (uid code : String) (hs : List (String × String)) (now now2 : Int) :
    passcodeFinalize m uid code (Except.ok ⟨401, hs⟩) now
      = (Except.error HankoErr.invalidPasscode, m) ∧
    getActiveID (passcodeFinalize m uid code (Except.ok ⟨401, hs⟩) now).2 uid
      = getActiveID m uid ∧
    getTTL (passcodeFinalize m uid code (Except.ok ⟨401, hs⟩) now).2 uid now2
      = getTTL m uid now2 :=
  ⟨rfl, rfl, rfl⟩

/-- C6: on HTTP 429 with an X-Retry-After header whose value parses to the
integer n, PasswordClient.login and PasscodeClient.initialize both reject
with TooManyRequestsError carrying n and persist the cooldown deadline now + n
for that user, so the matching getter read within the next clock tick reports
a value in the interval from n - 1 to n. -/
theorem C6_429_persists_retry_after (m : Mem) (uid pwd : String)
    (pc : PasscodeDTO) (hs : List (String × String)) (v : String) (n : Int)
    (now now2 : Int) (hv : headerGet hs "X-Retry-After" = some v) (hne : v ≠ "")
    (hn : parseIntJS v = some n) (h1 : now ≤ now2) (h2 : now2 ≤ now + 1) :
    (passwordLogin m uid pwd (Except.ok { status := 429, headers := hs }) now).1
        = Except.error (HankoErr.tooManyRequests (some n)) ∧
    (∃ r, getRetryAfter
        (passwordLogin m uid pwd (Except.ok { status := 429, headers := hs }) now).2
        uid now2 = some r ∧ n - 1 ≤ r ∧ r ≤ n) ∧
    (passcodeInit m uid (Except.ok { status := 429, headers := hs }) pc now).1
        = Except.error (HankoErr.tooManyRequests (some n)) ∧
    (∃ r, getResendAfter
        (passcodeInit m uid (Except.ok { status := 429, headers := hs }) pc now).2
        uid now2 = some r ∧ n - 1 ≤ r ∧ r ≤ n) := by
  have hra : retryAfterOf { status := 429, headers := hs } = some n := by
    simp [retryAfterOf, hv, jsOr, hne, hn]
  have hlogin : passwordLogin m uid pwd (Except.ok { status := 429, headers := hs }) now
      = (Except.error (HankoErr.tooManyRequests (some n)),
         setRetryAfter m uid (some n) now) := by
    simp [passwordLogin, Response.isOk, hra]
  have hinit : passcodeInit m uid (Except.ok { status := 429, headers := hs }) pc now
      = (Except.error (HankoErr.tooManyRequests (some n)),
         setResendAfter m uid (some n) now) := by
    simp [passcodeInit, Response.isOk, hra]
  refine ⟨by rw [hlogin], ⟨n - (now2 - now), ?_, by omega, by omega⟩,
    by rw [hinit], ⟨n - (now2 - now), ?_, by omega, by omega⟩⟩
  · rw [hlogin]
    simp [getRetryAfter, setRetryAfter, getUserState_mutateUser_self,
      timeToRemainingSeconds, remainingSecondsToTime]
    omega
  · rw [hinit]
    simp [getResendAfter, setResendAfter, getUserState_mutateUser_self,
      timeToRemainingSeconds, remainingSecondsToTime]
    omega

/-- C6 witness: the scenario of the spec, header value "30" read back at the
same instant. -/
theorem C6_429_persists_retry_after_witness :
    (passwordLogin mem0 "u1" "bad" (Except.ok ⟨429, [("X-Retry-After", "30")]⟩) 0).1
      = Except.error (HankoErr.tooManyRequests (some 30)) ∧
    (∃ r, getRetryAfter
        (passwordLogin mem0 "u1" "bad" (Except.ok ⟨429, [("X-Retry-After", "30")]⟩) 0).2
        "u1" 0 = some r ∧ 30 - 1 ≤ r ∧ r ≤ 30) ∧
    (passcodeInit mem0 "u1" (Except.ok ⟨429, [("X-Retry-After", "30")]⟩)
        ⟨"p1", some 300⟩ 0).1
      = Except.error (HankoErr.tooManyRequests (some 30)) ∧
    (∃ r, getResendAfter
        (passcodeInit mem0 "u1" (Except.ok ⟨429, [("X-Retry-After", "30")]⟩)
          ⟨"p1", some 300⟩ 0).2 "u1" 0 = some r ∧ 30 - 1 ≤ r ∧ r ≤ 30) :=
  C6_429_persists_retry_after mem0 "u1" "bad" ⟨"p1", some 300⟩
    [("X-Retry-After", "30")] "30" 30 0 0 (by decide) (by decide) (by decide)
    (by decide) (by decide)

/-- C7: shouldRegister(user) is true exactly when a platform authenticator is
available and the server-known credential list is absent, empty, or has empty
intersection with the locally stored credential IDs via matchCredentials. -/
theorem C7_shouldRegister_iff (m : Mem) (supported : Bool) (u : UserDTO) :
    shouldRegister m supported u = true ↔
      (supported = true ∧
        (u.webauthn_credentials = none ∨ u.webauthn_credentials = some [] ∨
          matchCredentials m u.id (u.webauthn_credentials.getD []) = [])) := by
  rcases u with ⟨uid, email, creds⟩
  cases creds with
  | none => simp [shouldRegister]
  | some cs =>
    cases cs with
    | nil => simp [shouldRegister]
    | cons c cs2 =>
      simp [shouldRegister, List.isEmpty_iff, Bool.and_eq_true]

/-- C8: setPasscodeTTL(u, s) stores the deadline now + s, so the remaining
seconds read within the next clock tick lie between s - 1 and s, and any read
at or after the deadline yields a value at most 0. -/
theorem C8_ttl_remaining (m : Mem) (uid : String) (s now now2 now3 : Int)
    (h1 : now ≤ now2) (h2 : now2 ≤ now + 1) (h3 : now + s ≤ now3) :
    (∃ r, getTTL (setTTL m uid (some s) now) uid now2 = some r ∧
      s - 1 ≤ r ∧ r ≤ s) ∧
    (∃ r, getTTL (setTTL m uid (some s) now) uid now3 = some r ∧ r ≤ 0) := by
  have key : ∀ t : Int, getTTL (setTTL m uid (some s) now) uid t
      = some (now + s - t) := by
    intro t
    simp [getTTL, setTTL, getUserState_mutateUser_self, timeToRemainingSeconds,
      remainingSecondsToTime]
  exact ⟨⟨now + s - now2, key now2, by omega, by omega⟩,
    ⟨now + s - now3, key now3, by omega⟩⟩

/-- C8 witness: TTL 120 set at time 1000, read at 1000 and at 1120. -/
theorem C8_ttl_remaining_witness :
    (∃ r, getTTL (setTTL mem0 "u1" (some 120) 1000) "u1" 1000 = some r ∧
      120 - 1 ≤ r ∧ r ≤ 120) ∧
    (∃ r, getTTL (setTTL mem0 "u1" (some 120) 1000) "u1" 1120 = some r ∧ r ≤ 0) :=
  C8_ttl_remaining mem0 "u1" 120 1000 1000 1120 (by decide) (by decide) (by decide)

/-- C9: the claim that clearActivePasscode always leaves the ID absent and the
TTL cleared fails on the code: for a fresh user, setActiveID mutates the
shared initialUserState object, and removeActive then resets the ID to the
CURRENT initialUserState.passcode.id, which is the very passcode ID just set.
After setActiveID("u1", "p1") then removeActive("u1") the active ID is still
"p1" while the TTL was reset to 0: one is cleared without the other. -/
theorem C9_clear_after_set_leaves_id :
    getActiveID (removeActive (setActiveID mem0 "u1" "p1") "u1") "u1" = "p1" ∧
    getTTL (removeActive (setActiveID mem0 "u1" "p1") "u1") "u1" 0 = some 0 ∧
    ("p1" : String) ≠ "" :=
  ⟨rfl, rfl, by decide⟩

/-- C10 counterexample: an X-Retry-After value that does not parse as an
integer ("abc") makes parseInt return NaN, so the client persists NaN and the
error carries NaN, not 0, refuting the claim at this concrete input. -/
theorem C10_counterexample :
    (passcodeInit mem0 "u1" (Except.ok ⟨429, [("X-Retry-After", "abc")]⟩)
        ⟨"", some 0⟩ 0).1
      = Except.error (HankoErr.tooManyRequests none) ∧
    (none : JNum) ≠ some 0 ∧
    getResendAfter (passcodeInit mem0 "u1"
        (Except.ok ⟨429, [("X-Retry-After", "abc")]⟩) ⟨"", some 0⟩ 0).2
      "u1" 0 = none :=
  ⟨rfl, by decide, rfl⟩

/-- C10 amended: on HTTP 429 with the X-Retry-After header absent, both
clients persist a cooldown of 0 and reject with TooManyRequestsError carrying
0; with a header value that does not parse as an integer they persist NaN and
the error carries NaN, not 0. -/
theorem C10_amended (m : Mem) (uid pwd : String) (pc : PasscodeDTO) (now : Int)
    (hs1 hs2 : List (String × String)) (v : String)
    (h0 : headerGet hs1 "X-Retry-After" = none)
    (h1 : headerGet hs2 "X-Retry-After" = some v) (h2 : v ≠ "")
    (h3 : parseIntJS v = none) :
    ((passcodeInit m uid (Except.ok { status := 429, headers := hs1 }) pc now).1
        = Except.error (HankoErr.tooManyRequests (some 0)) ∧
      getResendAfter (passcodeInit m uid (Except.ok { status := 429, headers := hs1 })
        pc now).2 uid now = some 0 ∧
      (passwordLogin m uid pwd (Except.ok { status := 429, headers := hs1 }) now).1
        = Except.error (HankoErr.tooManyRequests (some 0)) ∧
      getRetryAfter (passwordLogin m uid pwd (Except.ok { status := 429, headers := hs1 })
        now).2 uid now = some 0) ∧
    ((passcodeInit m uid (Except.ok { status := 429, headers := hs2 }) pc now).1
        = Except.error (HankoErr.tooManyRequests none) ∧
      getResendAfter (passcodeInit m uid (Except.ok { status := 429, headers := hs2 })
        pc now).2 uid now = none ∧
      (passwordLogin m uid pwd (Except.ok { status := 429, headers := hs2 }) now).1
        = Except.error (HankoErr.tooManyRequests none) ∧
      getRetryAfter (passwordLogin m uid pwd (Except.ok { status := 429, headers := hs2 })
        now).2 uid now = none) := by
  have hra1 : retryAfterOf { status := 429, headers := hs1 } = some 0 := by
    simp [retryAfterOf, h0, jsOr]
    decide
  have hra2 : retryAfterOf { status := 429, headers := hs2 } = none := by
    simp [retryAfterOf, h1, jsOr, h2, h3]
  have hinit1 : passcodeInit m uid (Except.ok { status := 429, headers := hs1 }) pc now
      = (Except.error (HankoErr.tooManyRequests (some 0)),
         setResendAfter m uid (some 0) now) := by
    simp [passcodeInit, Response.isOk, hra1]
  have hinit2 : passcodeInit m uid (Except.ok { status := 429, headers := hs2 }) pc now
      = (Except.error (HankoErr.tooManyRequests none),
         setResendAfter m uid none now) := by
    simp [passcodeInit, Response.isOk, hra2]
  have hlog1 : passwordLogin m uid pwd (Except.ok { status := 429, headers := hs1 }) now
      = (Except.error (HankoErr.tooManyRequests (some 0)),
         setRetryAfter m uid (some 0) now) := by
    simp [passwordLogin, Response.isOk, hra1]
  have hlog2 : passwordLogin m uid pwd (Except.ok { status := 429, headers := hs2 }) now
      = (Except.error (HankoErr.tooManyRequests none),
         setRetryAfter m uid none now) := by
    simp [passwordLogin, Response.isOk, hra2]
  refine ⟨⟨by rw [hinit1], ?_, by rw [hlog1], ?_⟩,
    ⟨by rw [hinit2], ?_, by rw [hlog2], ?_⟩⟩
  · rw [hinit1]
    simp [getResendAfter, setResendAfter, getUserState_mutateUser_self,
      timeToRemainingSeconds, remainingSecondsToTime]
  · rw [hlog1]
    simp [getRetryAfter, setRetryAfter, getUserState_mutateUser_self,
      timeToRemainingSeconds, remainingSecondsToTime]
  · rw [hinit2]
    simp [getResendAfter, setResendAfter, getUserState_mutateUser_self,
      timeToRemainingSeconds, remainingSecondsToTime]
  · rw [hlog2]
    simp [getRetryAfter, setRetryAfter, getUserState_mutateUser_self,
      timeToRemainingSeconds, remainingSecondsToTime]

/-- C10 amended, witness: no header versus the header value "abc". -/
theorem C10_amended_witness :
    ((passcodeInit mem0 "u1" (Except.ok ⟨429, []⟩) ⟨"p1", some 300⟩ 0).1
        = Except.error (HankoErr.tooManyRequests (some 0)) ∧
      getResendAfter (passcodeInit mem0 "u1" (Except.ok ⟨429, []⟩) ⟨"p1", some 300⟩ 0).2
        "u1" 0 = some 0 ∧
      (passwordLogin mem0 "u1" "bad" (Except.ok ⟨429, []⟩) 0).1
        = Except.error (HankoErr.tooManyRequests (some 0)) ∧
      getRetryAfter (passwordLogin mem0 "u1" "bad" (Except.ok ⟨429, []⟩) 0).2
        "u1" 0 = some 0) ∧
    ((passcodeInit mem0 "u1" (Except.ok ⟨429, [("X-Retry-After", "abc")]⟩)
        ⟨"p1", some 300⟩ 0).1 = Except.error (HankoErr.tooManyRequests none) ∧
      getResendAfter (passcodeInit mem0 "u1" (Except.ok ⟨429, [("X-Retry-After", "abc")]⟩)
        ⟨"p1", some 300⟩ 0).2 "u1" 0 = none ∧
      (passwordLogin mem0 "u1" "bad" (Except.ok ⟨429, [("X-Retry-After", "abc")]⟩) 0).1
        = Except.error (HankoErr.tooManyRequests none) ∧
      getRetryAfter (passwordLogin mem0 "u1" "bad"
        (Except.ok ⟨429, [("X-Retry-After", "abc")]⟩) 0).2 "u1" 0 = none) :=
  C10_amended mem0 "u1" "bad" ⟨"p1", some 300⟩ 0 [] [("X-Retry-After", "abc")] "abc"
    (by decide) (by decide) (by decide) (by decide)
